import Mathlib

/-!
Shallow embedding of the reinette-II Apple II emulator core (reinette-II.c).
Machine integers are modelled as Nat with explicit reductions mod 2^8 / 2^16
at the points where the C code converts between uint8_t / uint16_t / int.
The side-effecting C bus read is split into a value part (readMemV) and a
state part (readMemS); the only state a read can change is the keyboard
latch (a read of address 0xC010 clears its bit 7).
-/

namespace Reinette

/-- Machine state: RAM (48KB), ROM (12KB), the 6502 register file, the
keyboard latch, the video-dirty flag and the transient operand record. -/
structure Machine where
  ram : Nat → Nat
  rom : Nat → Nat
  A : Nat
  X : Nat
  Y : Nat
  SR : Nat
  SP : Nat
  PC : Nat
  key : Nat
  videoNeedsRefresh : Bool
  setAcc : Bool
  opeValue : Nat
  opeAddress : Nat

/-- Value returned by the bus read (readMem in the C source). -/
def readMemV (m : Machine) (address : Nat) : Nat :=
  let address := address % 65536
  if address < 0xC000 then m.ram address % 256
  else if 0xD000 ≤ address then m.rom (address - 0xD000) % 256
  else if address = 0xC000 then m.key % 256
  else if address = 0xC010 then (m.key % 256) &&& 0x7F
  else 0

/-- State change performed by the bus read (readMem in the C source):
a read of 0xC010 clears bit 7 of the keyboard latch. -/
def readMemS (m : Machine) (address : Nat) : Machine :=
  let address := address % 65536
  if address < 0xC000 then m
  else if 0xD000 ≤ address then m
  else if address = 0xC000 then m
  else if address = 0xC010 then { m with key := (m.key % 256) &&& 0x7F }
  else m

/-- Bus write (writeMem in the C source). -/
def writeMem (m : Machine) (address value : Nat) : Machine :=
  let address := address % 65536
  let value := value % 256
  let m1 := if address &&& 0x400 ≠ 0 then { m with videoNeedsRefresh := true } else m
  if address < 0xC000 then
    { m1 with ram := fun a => if a = address then value else m1.ram a }
  else if address = 0xC010 then { m1 with key := (m1.key % 256) &&& 0x7F }
  else m1

/-- Stack push: write to 0x100 + SP, then decrement SP (8-bit wrap). -/
def push (m : Machine) (value : Nat) : Machine :=
  { writeMem m (0x100 + m.SP % 256) value with SP := (m.SP % 256 + 255) % 256 }

/-- Value part of the stack pull: increment SP, read 0x100 + SP. -/
def pullV (m : Machine) : Nat :=
  readMemV m (0x100 + (m.SP % 256 + 1) % 256)

/-- State part of the stack pull. -/
def pullS (m : Machine) : Machine :=
  { readMemS m (0x100 + (m.SP % 256 + 1) % 256) with SP := (m.SP % 256 + 1) % 256 }

/-- Update the Sign and Zero flags from an 8-bit value (setSZ in the source). -/
def setSZ (m : Machine) (value : Nat) : Machine :=
  let value := value % 256
  let m1 := if value ≠ 0 then { m with SR := m.SR &&& 0xFD }
            else { m with SR := m.SR ||| 0x02 }
  if value &&& 0x80 ≠ 0 then { m1 with SR := m1.SR ||| 0x80 }
  else { m1 with SR := m1.SR &&& 0x7F }

/-- Processor reset: load PC from 0xFFFC/0xFFFD, SP := 0xFF, set the U bit,
clear the transient operand record. -/
def reset (m : Machine) : Machine :=
  let lo := readMemV m 0xFFFC
  let m1 := readMemS m 0xFFFC
  let hi := readMemV m1 0xFFFD
  let m2 := readMemS m1 0xFFFD
  { m2 with PC := lo ||| (hi <<< 8), SP := 0xFF, SR := m2.SR ||| 0x20,
            setAcc := false, opeValue := 0, opeAddress := 0 }

/-! Addressing-mode resolvers. Each runs with PC pointing at the first
operand byte (the opcode has already been consumed). -/

/-- IMPlicit addressing. -/
def IMP (m : Machine) : Machine := m

/-- ACCumulator addressing. -/
def ACC (m : Machine) : Machine :=
  { m with opeValue := m.A % 256, setAcc := true }

/-- IMMediate addressing. -/
def IMM (m : Machine) : Machine :=
  let pc := m.PC % 65536
  let m1 := { m with PC := (pc + 1) % 65536, opeAddress := pc }
  let v := readMemV m1 pc
  let m2 := readMemS m1 pc
  { m2 with opeValue := v }

/-- Zero PaGe addressing. -/
def ZPG (m : Machine) : Machine :=
  let pc := m.PC % 65536
  let a := readMemV m pc
  let m1 := readMemS m pc
  let m2 := { m1 with PC := (pc + 1) % 65536, opeAddress := a }
  let v := readMemV m2 a
  let m3 := readMemS m2 a
  { m3 with opeValue := v }

/-- Zero Page,X addressing (wraps inside the zero page). -/
def ZPX (m : Machine) : Machine :=
  let pc := m.PC % 65536
  let b := readMemV m pc
  let m1 := readMemS m pc
  let a := (b + m.X % 256) &&& 0xFF
  let m2 := { m1 with PC := (pc + 1) % 65536, opeAddress := a }
  let v := readMemV m2 a
  let m3 := readMemS m2 a
  { m3 with opeValue := v }

/-- Zero Page,Y addressing (wraps inside the zero page). -/
def ZPY (m : Machine) : Machine :=
  let pc := m.PC % 65536
  let b := readMemV m pc
  let m1 := readMemS m pc
  let a := (b + m.Y % 256) &&& 0xFF
  let m2 := { m1 with PC := (pc + 1) % 65536, opeAddress := a }
  let v := readMemV m2 a
  let m3 := readMemS m2 a
  { m3 with opeValue := v }

/-- RELative addressing for branches: sign-extend the offset to 16 bits. -/
def REL (m : Machine) : Machine :=
  let pc := m.PC % 65536
  let b := readMemV m pc
  let m1 := readMemS m pc
  let a := if b &&& 0x80 ≠ 0 then b ||| 0xFF00 else b
  { m1 with PC := (pc + 1) % 65536, opeAddress := a }

/-- ABSolute addressing (little-endian 16-bit address). -/
def ABS (m : Machine) : Machine :=
  let pc := m.PC % 65536
  let lo := readMemV m pc
  let m1 := readMemS m pc
  let hi := readMemV m1 ((pc + 1) % 65536)
  let m2 := readMemS m1 ((pc + 1) % 65536)
  let a := lo ||| (hi <<< 8)
  let m3 := { m2 with opeAddress := a }
  let v := readMemV m3 a
  let m4 := readMemS m3 a
  { m4 with opeValue := v, PC := (pc + 2) % 65536 }

/-- ABsolute,X addressing. -/
def ABX (m : Machine) : Machine :=
  let pc := m.PC % 65536
  let lo := readMemV m pc
  let m1 := readMemS m pc
  let hi := readMemV m1 ((pc + 1) % 65536)
  let m2 := readMemS m1 ((pc + 1) % 65536)
  let a := ((lo ||| (hi <<< 8)) + m.X % 256) % 65536
  let m3 := { m2 with opeAddress := a }
  let v := readMemV m3 a
  let m4 := readMemS m3 a
  { m4 with opeValue := v, PC := (pc + 2) % 65536 }

/-- ABsolute,Y addressing. -/
def ABY (m : Machine) : Machine :=
  let pc := m.PC % 65536
  let lo := readMemV m pc
  let m1 := readMemS m pc
  let hi := readMemV m1 ((pc + 1) % 65536)
  let m2 := readMemS m1 ((pc + 1) % 65536)
  let a := ((lo ||| (hi <<< 8)) + m.Y % 256) % 65536
  let m3 := { m2 with opeAddress := a }
  let v := readMemV m3 a
  let m4 := readMemS m3 a
  { m4 with opeValue := v, PC := (pc + 2) % 65536 }

/-- INDirect addressing, with the NMOS page-boundary wraparound bug: the
high byte of the target is fetched from the same page as the low byte. -/
def IND (m : Machine) : Machine :=
  let pc := m.PC % 65536
  let l1 := readMemV m pc
  let m1 := readMemS m pc
  let h1 := readMemV m1 ((pc + 1) % 65536)
  let m2 := readMemS m1 ((pc + 1) % 65536)
  let vector1 := l1 ||| (h1 <<< 8)
  let vector2 := (vector1 &&& 0xFF00) ||| ((vector1 + 1) &&& 0x00FF)
  let lo := readMemV m2 vector1
  let m3 := readMemS m2 vector1
  let hi := readMemV m3 vector2
  let m4 := readMemS m3 vector2
  let a := lo ||| (hi <<< 8)
  let m5 := { m4 with opeAddress := a }
  let v := readMemV m5 a
  let m6 := readMemS m5 a
  { m6 with opeValue := v, PC := (pc + 2) % 65536 }

/-- InDexed indirect X addressing. -/
def IDX (m : Machine) : Machine :=
  let pc := m.PC % 65536
  let b := readMemV m pc
  let m1 := readMemS m pc
  let vector1 := (b + m.X % 256) &&& 0xFF
  let m2 := { m1 with PC := (pc + 1) % 65536 }
  let lo := readMemV m2 (vector1 &&& 0x00FF)
  let m3 := readMemS m2 (vector1 &&& 0x00FF)
  let hi := readMemV m3 ((vector1 + 1) &&& 0x00FF)
  let m4 := readMemS m3 ((vector1 + 1) &&& 0x00FF)
  let a := lo ||| (hi <<< 8)
  let m5 := { m4 with opeAddress := a }
  let v := readMemV m5 a
  let m6 := readMemS m5 a
  { m6 with opeValue := v }

/-- InDirect indexed Y addressing. -/
def IDY (m : Machine) : Machine :=
  let pc := m.PC % 65536
  let vector1 := readMemV m pc
  let m1 := readMemS m pc
  let m2 := { m1 with PC := (pc + 1) % 65536 }
  let vector2 := (vector1 &&& 0xFF00) ||| ((vector1 + 1) &&& 0x00FF)
  let lo := readMemV m2 vector1
  let m3 := readMemS m2 vector1
  let hi := readMemV m3 vector2
  let m4 := readMemS m3 vector2
  let a := ((lo ||| (hi <<< 8)) + m.Y % 256) % 65536
  let m5 := { m4 with opeAddress := a }
  let v := readMemV m5 a
  let m6 := readMemS m5 a
  { m6 with opeValue := v }

/-! Instruction routines, in source order. -/

/-- NO Operation. -/
def NOP (m : Machine) : Machine := m

/-- BReaK: advance PC once more, push PC high, PC low, SR with the BREAK
bit set, set I, jump through the vector at 0xFFFE/0xFFFF. -/
def BRK (m : Machine) : Machine :=
  let pc := (m.PC % 65536 + 1) % 65536
  let m1 := { m with PC := pc }
  let m2 := push m1 ((pc >>> 8) &&& 0xFF)
  let m3 := push m2 (pc &&& 0xFF)
  let m4 := push m3 (m3.SR ||| 0x10)
  let m5 := { m4 with SR := m4.SR ||| 0x04 }
  let lo := readMemV m5 0xFFFE
  let m6 := readMemS m5 0xFFFE
  let hi := readMemV m6 0xFFFF
  let m7 := readMemS m6 0xFFFF
  { m7 with PC := lo ||| (hi <<< 8) }

/-- CLear Decimal. -/
def CLD (m : Machine) : Machine := { m with SR := m.SR &&& 0xF7 }

/-- SEt Decimal. -/
def SED (m : Machine) : Machine := { m with SR := m.SR ||| 0x08 }

/-- CLear Carry. -/
def CLC (m : Machine) : Machine := { m with SR := m.SR &&& 0xFE }

/-- SEt Carry. -/
def SEC (m : Machine) : Machine := { m with SR := m.SR ||| 0x01 }

/-- CLear Interrupt. -/
def CLI (m : Machine) : Machine := { m with SR := m.SR &&& 0xFB }

/-- SEt Interrupt. -/
def SEI (m : Machine) : Machine := { m with SR := m.SR ||| 0x04 }

/-- CLear oVerflow. -/
def CLV (m : Machine) : Machine := { m with SR := m.SR &&& 0xBF }

/-- LoaD Accumulator. -/
def LDA (m : Machine) : Machine :=
  let a := m.opeValue % 256
  setSZ { m with A := a } a

/-- LoaD X. -/
def LDX (m : Machine) : Machine :=
  let x := m.opeValue % 256
  setSZ { m with X := x } x

/-- LoaD Y. -/
def LDY (m : Machine) : Machine :=
  let y := m.opeValue % 256
  setSZ { m with Y := y } y

/-- STore Accumulator. -/
def STA (m : Machine) : Machine := writeMem m m.opeAddress m.A

/-- STore X. -/
def STX (m : Machine) : Machine := writeMem m m.opeAddress m.X

/-- STore Y. -/
def STY (m : Machine) : Machine := writeMem m m.opeAddress m.Y

/-- DECrement memory. -/
def DEC (m : Machine) : Machine :=
  let v := (m.opeValue % 65536 + 65535) % 65536
  let m1 := { m with opeValue := v }
  let m2 := writeMem m1 m1.opeAddress v
  setSZ m2 v

/-- DEcrement X. -/
def DEX (m : Machine) : Machine :=
  let x := (m.X % 256 + 255) % 256
  setSZ { m with X := x } x

/-- DEcrement Y. -/
def DEY (m : Machine) : Machine :=
  let y := (m.Y % 256 + 255) % 256
  setSZ { m with Y := y } y

/-- INCrement memory. -/
def INC (m : Machine) : Machine :=
  let v := (m.opeValue % 65536 + 1) % 65536
  let m1 := { m with opeValue := v }
  let m2 := writeMem m1 m1.opeAddress v
  setSZ m2 v

/-- INcrement X. -/
def INX (m : Machine) : Machine :=
  let x := (m.X % 256 + 1) % 256
  setSZ { m with X := x } x

/-- INcrement Y. -/
def INY (m : Machine) : Machine :=
  let y := (m.Y % 256 + 1) % 256
  setSZ { m with Y := y } y

/-- Transfer Accumulator to X. -/
def TAX (m : Machine) : Machine :=
  let x := m.A % 256
  setSZ { m with X := x } x

/-- Transfer Accumulator to Y. -/
def TAY (m : Machine) : Machine :=
  let y := m.A % 256
  setSZ { m with Y := y } y

/-- Transfer X to Accumulator. -/
def TXA (m : Machine) : Machine :=
  let a := m.X % 256
  setSZ { m with A := a } a

/-- Transfer Y to Accumulator. -/
def TYA (m : Machine) : Machine :=
  let a := m.Y % 256
  setSZ { m with A := a } a

/-- Transfer SP to X. -/
def TSX (m : Machine) : Machine :=
  let x := m.SP % 256
  setSZ { m with X := x } x

/-- Transfer X to SP (no flag update). -/
def TXS (m : Machine) : Machine := { m with SP := m.X % 256 }

/-- Branch on EQual (zero set). -/
def BEQ (m : Machine) : Machine :=
  if m.SR &&& 0x02 ≠ 0 then { m with PC := (m.PC % 65536 + m.opeAddress % 65536) % 65536 }
  else m

/-- Branch on Not Equal (zero clear). -/
def BNE (m : Machine) : Machine :=
  if m.SR &&& 0x02 = 0 then { m with PC := (m.PC % 65536 + m.opeAddress % 65536) % 65536 }
  else m

/-- Branch if MInus (sign set). -/
def BMI (m : Machine) : Machine :=
  if m.SR &&& 0x80 ≠ 0 then { m with PC := (m.PC % 65536 + m.opeAddress % 65536) % 65536 }
  else m

/-- Branch if PLus (sign clear). -/
def BPL (m : Machine) : Machine :=
  if m.SR &&& 0x80 = 0 then { m with PC := (m.PC % 65536 + m.opeAddress % 65536) % 65536 }
  else m

/-- Branch on oVerflow Set. -/
def BVS (m : Machine) : Machine :=
  if m.SR &&& 0x40 ≠ 0 then { m with PC := (m.PC % 65536 + m.opeAddress % 65536) % 65536 }
  else m

/-- Branch on oVerflow Clear. -/
def BVC (m : Machine) : Machine :=
  if m.SR &&& 0x40 = 0 then { m with PC := (m.PC % 65536 + m.opeAddress % 65536) % 65536 }
  else m

/-- Branch on Carry Set. -/
def BCS (m : Machine) : Machine :=
  if m.SR &&& 0x01 ≠ 0 then { m with PC := (m.PC % 65536 + m.opeAddress % 65536) % 65536 }
  else m

/-- Branch on Carry Clear. -/
def BCC (m : Machine) : Machine :=
  if m.SR &&& 0x01 = 0 then { m with PC := (m.PC % 65536 + m.opeAddress % 65536) % 65536 }
  else m

/-- PusH A onto the stack. -/
def PHA (m : Machine) : Machine := push m m.A

/-- PulL the stack into A. -/
def PLA (m : Machine) : Machine :=
  let v := pullV m
  let m1 := pullS m
  setSZ { m1 with A := v } v

/-- PusH the status register (with the BREAK bit set) onto the stack. -/
def PHP (m : Machine) : Machine := push m (m.SR ||| 0x10)

/-- PulL the stack into the status register (forcing the U bit). -/
def PLP (m : Machine) : Machine :=
  let v := pullV m
  let m1 := pullS m
  { m1 with SR := v ||| 0x20 }

/-- JuMP. -/
def JMP (m : Machine) : Machine := { m with PC := m.opeAddress % 65536 }

/-- Jump Sub-Routine: push PC-1 high then low, jump to the operand address. -/
def JSR (m : Machine) : Machine :=
  let pc := (m.PC % 65536 + 65535) % 65536
  let m1 := { m with PC := pc }
  let m2 := push m1 ((pc >>> 8) &&& 0xFF)
  let m3 := push m2 (pc &&& 0xFF)
  { m3 with PC := m3.opeAddress % 65536 }

/-- ReTurn from Sub-routine: pull low then high, set PC to pulled + 1. -/
def RTS (m : Machine) : Machine :=
  let lo := pullV m
  let m1 := pullS m
  let hi := pullV m1
  let m2 := pullS m1
  { m2 with PC := ((lo ||| (hi <<< 8)) + 1) % 65536 }

/-- ReTurn from Interrupt: pull SR, then pull PC low then high. -/
def RTI (m : Machine) : Machine :=
  let sr := pullV m
  let m1 := { pullS m with SR := sr }
  let lo := pullV m1
  let m2 := pullS m1
  let hi := pullV m2
  let m3 := pullS m2
  { m3 with PC := lo ||| (hi <<< 8) }

/-- CoMPare with A. -/
def CMP (m : Machine) : Machine :=
  let m1 := setSZ m ((m.A % 256 + 65536 - m.opeValue % 65536) % 256)
  if m.A % 256 ≥ m.opeValue % 65536 then { m1 with SR := m1.SR ||| 0x01 }
  else { m1 with SR := m1.SR &&& 0xFE }

/-- ComPare with X. -/
def CPX (m : Machine) : Machine :=
  let m1 := setSZ m ((m.X % 256 + 65536 - m.opeValue % 65536) % 256)
  if m.X % 256 ≥ m.opeValue % 65536 then { m1 with SR := m1.SR ||| 0x01 }
  else { m1 with SR := m1.SR &&& 0xFE }

/-- ComPare with Y. -/
def CPY (m : Machine) : Machine :=
  let m1 := setSZ m ((m.Y % 256 + 65536 - m.opeValue % 65536) % 256)
  if m.Y % 256 ≥ m.opeValue % 65536 then { m1 with SR := m1.SR ||| 0x01 }
  else { m1 with SR := m1.SR &&& 0xFE }

/-- Bitwise AND with A. -/
def AND (m : Machine) : Machine :=
  let a := (m.A % 256) &&& (m.opeValue % 65536)
  setSZ { m with A := a } a

/-- Bitwise OR with A. -/
def ORA (m : Machine) : Machine :=
  let a := ((m.A % 256) ||| (m.opeValue % 65536)) % 256
  setSZ { m with A := a } a

/-- Exclusive OR with A. -/
def EOR (m : Machine) : Machine :=
  let a := ((m.A % 256) ^^^ (m.opeValue % 65536)) % 256
  setSZ { m with A := a } a

/-- BIT test with A: Z from A AND value, copy bits 7 and 6 of the value
into the N and V flags. -/
def BIT (m : Machine) : Machine :=
  let m1 := if (m.A % 256) &&& (m.opeValue % 65536) ≠ 0 then { m with SR := m.SR &&& 0xFD }
            else { m with SR := m.SR ||| 0x02 }
  { m1 with SR := (m1.SR &&& 0x3F) ||| ((m.opeValue % 65536) &&& 0xC0) }

/-- Shared shift/rotate write-back: write to A when setAcc is set (and
clear setAcc), otherwise write to the operand address; update N and Z. -/
def makeUpdates (m : Machine) (val : Nat) : Machine :=
  let val := val % 256
  let m1 := if m.setAcc then { m with A := val, setAcc := false }
            else writeMem m m.opeAddress val
  setSZ m1 val

/-- Arithmetic Shift Left. -/
def ASL (m : Machine) : Machine :=
  let result := ((m.opeValue % 65536) <<< 1) % 65536
  let m1 := if result &&& 0xFF00 ≠ 0 then { m with SR := m.SR ||| 0x01 }
            else { m with SR := m.SR &&& 0xFE }
  makeUpdates m1 (result &&& 0xFF)

/-- Logical Shift Right. -/
def LSR (m : Machine) : Machine :=
  let m1 := if (m.opeValue % 65536) &&& 0x01 ≠ 0 then { m with SR := m.SR ||| 0x01 }
            else { m with SR := m.SR &&& 0xFE }
  makeUpdates m1 (((m.opeValue % 65536) >>> 1) &&& 0xFF)

/-- ROtate Left. -/
def ROL (m : Machine) : Machine :=
  let result := (((m.opeValue % 65536) <<< 1) ||| (m.SR &&& 0x01)) % 65536
  let m1 := if result &&& 0x100 ≠ 0 then { m with SR := m.SR ||| 0x01 }
            else { m with SR := m.SR &&& 0xFE }
  makeUpdates m1 (result &&& 0xFF)

/-- ROtate Right. -/
def ROR (m : Machine) : Machine :=
  let result := ((m.opeValue % 65536) >>> 1) ||| ((m.SR &&& 0x01) <<< 7)
  let m1 := if (m.opeValue % 65536) &&& 0x01 ≠ 0 then { m with SR := m.SR ||| 0x01 }
            else { m with SR := m.SR &&& 0xFE }
  makeUpdates m1 (result &&& 0xFF)

/-- ADd with Carry, including the NMOS decimal-mode adjust. -/
def ADC (m : Machine) : Machine :=
  let a := m.A % 256
  let v := m.opeValue % 65536
  let result := (a + v + (m.SR &&& 0x01)) % 65536
  let m1 := setSZ m result
  let m2 := if (result ^^^ a) &&& (result ^^^ v) &&& 0x0080 ≠ 0 then { m1 with SR := m1.SR ||| 0x40 }
            else { m1 with SR := m1.SR &&& 0xBF }
  let result2 := if m2.SR &&& 0x08 ≠ 0 then
                   (result + ((((result + 0x66) ^^^ a ^^^ v) >>> 3) &&& 0x22) * 3) % 65536
                 else result
  let m3 := if result2 &&& 0xFF00 ≠ 0 then { m2 with SR := m2.SR ||| 0x01 }
            else { m2 with SR := m2.SR &&& 0xFE }
  { m3 with A := result2 &&& 0xFF }

/-- SuBtract with Carry: complement the operand (minus 0x66 in decimal
mode), then proceed as ADC. -/
def SBC (m : Machine) : Machine :=
  let v0 := (m.opeValue % 65536) ^^^ 0xFF
  let v1 := if m.SR &&& 0x08 ≠ 0 then (v0 + 65536 - 0x66) % 65536 else v0
  let m0 := { m with opeValue := v1 }
  let a := m0.A % 256
  let v := m0.opeValue % 65536
  let result := (a + v + (m0.SR &&& 0x01)) % 65536
  let m1 := setSZ m0 result
  let m2 := if (result ^^^ a) &&& (result ^^^ v) &&& 0x0080 ≠ 0 then { m1 with SR := m1.SR ||| 0x40 }
            else { m1 with SR := m1.SR &&& 0xBF }
  let result2 := if m2.SR &&& 0x08 ≠ 0 then
                   (result + ((((result + 0x66) ^^^ a ^^^ v) >>> 3) &&& 0x22) * 3) % 65536
                 else result
  let m3 := if result2 &&& 0xFF00 ≠ 0 then { m2 with SR := m2.SR ||| 0x01 }
            else { m2 with SR := m2.SR &&& 0xFE }
  { m3 with A := result2 &&& 0xFF }

/-- UNDefined opcode: no operation. -/
def UND (m : Machine) : Machine := m

/-! Dispatch: two parallel 256-entry tables indexed by the opcode byte. -/

/-- Mnemonics of the operation routines, for the dispatch table. -/
inductive Instr where
  | BRK | ORA | ASL | PHP | BPL | CLC | JSR | AND | BIT | ROL | PLP | BMI | SEC
  | RTI | EOR | LSR | PHA | JMP | BVC | CLI | RTS | ADC | ROR | PLA | BVS | SEI
  | STA | STY | STX | DEY | TXA | BCC | TYA | TXS | LDY | LDA | LDX | TAY | TAX
  | BCS | CLV | TSX | CPY | CMP | DEC | INY | DEX | BNE | CLD | CPX | SBC | INC
  | INX | NOP | BEQ | SED | UND
deriving DecidableEq

/-- Names of the addressing-mode resolvers, for the dispatch table. -/
inductive Mode where
  | IMP | ACC | IMM | ZPG | ZPX | ZPY | REL | ABS | ABX | ABY | IND | IDX | IDY
deriving DecidableEq

/-- Row 0x00 of the table. -/
def instrRow0 : List Instr := [.BRK, .ORA, .UND, .UND, .UND, .ORA, .ASL, .UND, .PHP, .ORA, .ASL, .UND, .UND, .ORA, .ASL, .UND]

/-- Row 0x10 of the table. -/
def instrRow1 : List Instr := [.BPL, .ORA, .UND, .UND, .UND, .ORA, .ASL, .UND, .CLC, .ORA, .UND, .UND, .UND, .ORA, .ASL, .UND]

/-- Row 0x20 of the table. -/
def instrRow2 : List Instr := [.JSR, .AND, .UND, .UND, .BIT, .AND, .ROL, .UND, .PLP, .AND, .ROL, .UND, .BIT, .AND, .ROL, .UND]

/-- Row 0x30 of the table. -/
def instrRow3 : List Instr := [.BMI, .AND, .UND, .UND, .UND, .AND, .ROL, .UND, .SEC, .AND, .UND, .UND, .UND, .AND, .ROL, .UND]

/-- Row 0x40 of the table. -/
def instrRow4 : List Instr := [.RTI, .EOR, .UND, .UND, .UND, .EOR, .LSR, .UND, .PHA, .EOR, .LSR, .UND, .JMP, .EOR, .LSR, .UND]

/-- Row 0x50 of the table. -/
def instrRow5 : List Instr := [.BVC, .EOR, .UND, .UND, .UND, .EOR, .LSR, .UND, .CLI, .EOR, .UND, .UND, .UND, .EOR, .LSR, .UND]

/-- Row 0x60 of the table. -/
def instrRow6 : List Instr := [.RTS, .ADC, .UND, .UND, .UND, .ADC, .ROR, .UND, .PLA, .ADC, .ROR, .UND, .JMP, .ADC, .ROR, .UND]

/-- Row 0x70 of the table. -/
def instrRow7 : List Instr := [.BVS, .ADC, .UND, .UND, .UND, .ADC, .ROR, .UND, .SEI, .ADC, .UND, .UND, .UND, .ADC, .ROR, .UND]

/-- Row 0x80 of the table. -/
def instrRow8 : List Instr := [.UND, .STA, .UND, .UND, .STY, .STA, .STX, .UND, .DEY, .UND, .TXA, .UND, .STY, .STA, .STX, .UND]

/-- Row 0x90 of the table. -/
def instrRow9 : List Instr := [.BCC, .STA, .UND, .UND, .STY, .STA, .STX, .UND, .TYA, .STA, .TXS, .UND, .UND, .STA, .UND, .UND]

/-- Row 0xA0 of the table. -/
def instrRowA : List Instr := [.LDY, .LDA, .LDX, .UND, .LDY, .LDA, .LDX, .UND, .TAY, .LDA, .TAX, .UND, .LDY, .LDA, .LDX, .UND]

/-- Row 0xB0 of the table. -/
def instrRowB : List Instr := [.BCS, .LDA, .UND, .UND, .LDY, .LDA, .LDX, .UND, .CLV, .LDA, .TSX, .UND, .LDY, .LDA, .LDX, .UND]

/-- Row 0xC0 of the table. -/
def instrRowC : List Instr := [.CPY, .CMP, .UND, .UND, .CPY, .CMP, .DEC, .UND, .INY, .CMP, .DEX, .UND, .CPY, .CMP, .DEC, .UND]

/-- Row 0xD0 of the table. -/
def instrRowD : List Instr := [.BNE, .CMP, .UND, .UND, .UND, .CMP, .DEC, .UND, .CLD, .CMP, .UND, .UND, .UND, .CMP, .DEC, .UND]

/-- Row 0xE0 of the table. -/
def instrRowE : List Instr := [.CPX, .SBC, .UND, .UND, .CPX, .SBC, .INC, .UND, .INX, .SBC, .NOP, .UND, .CPX, .SBC, .INC, .UND]

/-- Row 0xF0 of the table. -/
def instrRowF : List Instr := [.BEQ, .SBC, .UND, .UND, .UND, .SBC, .INC, .UND, .SED, .SBC, .UND, .UND, .UND, .SBC, .INC, .UND]
/-- The instruction dispatch table of the source: 16 rows of 16 entries. -/
def instruction : List Instr :=
  instrRow0 ++ instrRow1 ++ instrRow2 ++ instrRow3 ++ instrRow4 ++ instrRow5 ++ instrRow6 ++ instrRow7 ++ instrRow8 ++ instrRow9 ++ instrRowA ++ instrRowB ++ instrRowC ++ instrRowD ++ instrRowE ++ instrRowF

/-- Row 0x00 of the table. -/
def modeRow0 : List Mode := [.IMP, .IDX, .IMP, .IMP, .IMP, .ZPG, .ZPG, .IMP, .IMP, .IMM, .ACC, .IMP, .IMP, .ABS, .ABS, .IMP]

/-- Row 0x10 of the table. -/
def modeRow1 : List Mode := [.REL, .IDY, .IMP, .IMP, .IMP, .ZPX, .ZPX, .IMP, .IMP, .ABY, .IMP, .IMP, .IMP, .ABX, .ABX, .IMP]

/-- Row 0x20 of the table. -/
def modeRow2 : List Mode := [.ABS, .IDX, .IMP, .IMP, .ZPG, .ZPG, .ZPG, .IMP, .IMP, .IMM, .ACC, .IMP, .ABS, .ABS, .ABS, .IMP]

/-- Row 0x30 of the table. -/
def modeRow3 : List Mode := [.REL, .IDY, .IMP, .IMP, .IMP, .ZPX, .ZPX, .IMP, .IMP, .ABY, .IMP, .IMP, .IMP, .ABX, .ABX, .IMP]

/-- Row 0x40 of the table. -/
def modeRow4 : List Mode := [.IMP, .IDX, .IMP, .IMP, .IMP, .ZPG, .ZPG, .IMP, .IMP, .IMM, .ACC, .IMP, .ABS, .ABS, .ABS, .IMP]

/-- Row 0x50 of the table. -/
def modeRow5 : List Mode := [.REL, .IDY, .IMP, .IMP, .IMP, .ZPX, .ZPX, .IMP, .IMP, .ABY, .IMP, .IMP, .IMP, .ABX, .ABX, .IMP]

/-- Row 0x60 of the table. -/
def modeRow6 : List Mode := [.IMP, .IDX, .IMP, .IMP, .IMP, .ZPG, .ZPG, .IMP, .IMP, .IMM, .ACC, .IMP, .IND, .ABS, .ABS, .IMP]

/-- Row 0x70 of the table. -/
def modeRow7 : List Mode := [.REL, .IDY, .IMP, .IMP, .IMP, .ZPX, .ZPX, .IMP, .IMP, .ABY, .IMP, .IMP, .IMP, .ABX, .ABX, .IMP]

/-- Row 0x80 of the table. -/
def modeRow8 : List Mode := [.IMP, .IDX, .IMP, .IMP, .ZPG, .ZPG, .ZPG, .IMP, .IMP, .IMP, .IMP, .IMP, .ABS, .ABS, .ABS, .IMP]

/-- Row 0x90 of the table. -/
def modeRow9 : List Mode := [.REL, .IDY, .IMP, .IMP, .ZPX, .ZPX, .ZPY, .IMP, .IMP, .ABY, .IMP, .IMP, .IMP, .ABX, .IMP, .IMP]

/-- Row 0xA0 of the table. -/
def modeRowA : List Mode := [.IMM, .IDX, .IMM, .IMP, .ZPG, .ZPG, .ZPG, .IMP, .IMP, .IMM, .IMP, .IMP, .ABS, .ABS, .ABS, .IMP]

/-- Row 0xB0 of the table. -/
def modeRowB : List Mode := [.REL, .IDY, .IMP, .IMP, .ZPX, .ZPX, .ZPY, .IMP, .IMP, .ABY, .IMP, .IMP, .ABX, .ABX, .ABY, .IMP]

/-- Row 0xC0 of the table. -/
def modeRowC : List Mode := [.IMM, .IDX, .IMP, .IMP, .ZPG, .ZPG, .ZPG, .IMP, .IMP, .IMM, .IMP, .IMP, .ABS, .ABS, .ABS, .IMP]

/-- Row 0xD0 of the table. -/
def modeRowD : List Mode := [.REL, .IDY, .IMP, .IMP, .IMP, .ZPX, .ZPX, .IMP, .IMP, .ABY, .IMP, .IMP, .IMP, .ABX, .ABX, .IMP]

/-- Row 0xE0 of the table. -/
def modeRowE : List Mode := [.IMM, .IDX, .IMP, .IMP, .ZPG, .ZPG, .ZPG, .IMP, .IMP, .IMM, .IMP, .IMP, .ABS, .ABS, .ABS, .IMP]

/-- Row 0xF0 of the table. -/
def modeRowF : List Mode := [.REL, .IDY, .IMP, .IMP, .IMP, .ZPX, .ZPX, .IMP, .IMP, .ABY, .IMP, .IMP, .IMP, .ABX, .ABX, .IMP]
/-- The addressing-mode dispatch table of the source: 16 rows of 16 entries. -/
def addressing : List Mode :=
  modeRow0 ++ modeRow1 ++ modeRow2 ++ modeRow3 ++ modeRow4 ++ modeRow5 ++ modeRow6 ++ modeRow7 ++ modeRow8 ++ modeRow9 ++ modeRowA ++ modeRowB ++ modeRowC ++ modeRowD ++ modeRowE ++ modeRowF

/-- Operation mnemonic for an opcode byte. -/
def instrAt (op : Nat) : Instr := List.getD instruction op Instr.UND

/-- Addressing mode for an opcode byte. -/
def modeAt (op : Nat) : Mode := List.getD addressing op Mode.IMP

/-- Run the addressing-mode resolver named by the table entry. -/
def applyMode : Mode → Machine → Machine
  | Mode.IMP => IMP
  | Mode.ACC => ACC
  | Mode.IMM => IMM
  | Mode.ZPG => ZPG
  | Mode.ZPX => ZPX
  | Mode.ZPY => ZPY
  | Mode.REL => REL
  | Mode.ABS => ABS
  | Mode.ABX => ABX
  | Mode.ABY => ABY
  | Mode.IND => IND
  | Mode.IDX => IDX
  | Mode.IDY => IDY

/-- Run the operation routine named by the table entry. -/
def exec : Instr → Machine → Machine
  | Instr.BRK => BRK
  | Instr.ORA => ORA
  | Instr.ASL => ASL
  | Instr.PHP => PHP
  | Instr.BPL => BPL
  | Instr.CLC => CLC
  | Instr.JSR => JSR
  | Instr.AND => AND
  | Instr.BIT => BIT
  | Instr.ROL => ROL
  | Instr.PLP => PLP
  | Instr.BMI => BMI
  | Instr.SEC => SEC
  | Instr.RTI => RTI
  | Instr.EOR => EOR
  | Instr.LSR => LSR
  | Instr.PHA => PHA
  | Instr.JMP => JMP
  | Instr.BVC => BVC
  | Instr.CLI => CLI
  | Instr.RTS => RTS
  | Instr.ADC => ADC
  | Instr.ROR => ROR
  | Instr.PLA => PLA
  | Instr.BVS => BVS
  | Instr.SEI => SEI
  | Instr.STA => STA
  | Instr.STY => STY
  | Instr.STX => STX
  | Instr.DEY => DEY
  | Instr.TXA => TXA
  | Instr.BCC => BCC
  | Instr.TYA => TYA
  | Instr.TXS => TXS
  | Instr.LDY => LDY
  | Instr.LDA => LDA
  | Instr.LDX => LDX
  | Instr.TAY => TAY
  | Instr.TAX => TAX
  | Instr.BCS => BCS
  | Instr.CLV => CLV
  | Instr.TSX => TSX
  | Instr.CPY => CPY
  | Instr.CMP => CMP
  | Instr.DEC => DEC
  | Instr.INY => INY
  | Instr.DEX => DEX
  | Instr.BNE => BNE
  | Instr.CLD => CLD
  | Instr.CPX => CPX
  | Instr.SBC => SBC
  | Instr.INC => INC
  | Instr.INX => INX
  | Instr.NOP => NOP
  | Instr.BEQ => BEQ
  | Instr.SED => SED
  | Instr.UND => UND

/-- One fetch/decode/execute step of the main loop: fetch the opcode,
advance PC, resolve the addressing mode, execute the instruction. -/
def step (m : Machine) : Machine :=
  let pc := m.PC % 65536
  let op := readMemV m pc
  let m1 := readMemS m pc
  let m2 := { m1 with PC := (pc + 1) % 65536 }
  exec (instrAt op) (applyMode (modeAt op) m2)

/-- Machine state at C program start: zero-initialised globals, except the
video-dirty flag which the source initialises to true. -/
def initMachine : Machine :=
  { ram := fun _ => 0, rom := fun _ => 0, A := 0, X := 0, Y := 0, SR := 0,
    SP := 0, PC := 0, key := 0, videoNeedsRefresh := true, setAcc := false,
    opeValue := 0, opeAddress := 0 }

/-- Carry flag (bit 0 of SR). -/
abbrev getC (m : Machine) : Prop := m.SR.testBit 0 = true

/-- Zero flag (bit 1 of SR). -/
abbrev getZ (m : Machine) : Prop := m.SR.testBit 1 = true

/-- Interrupt-disable flag (bit 2 of SR). -/
abbrev getI (m : Machine) : Prop := m.SR.testBit 2 = true

/-- Decimal flag (bit 3 of SR). -/
abbrev getD (m : Machine) : Prop := m.SR.testBit 3 = true

/-- Unused flag (bit 5 of SR). -/
abbrev getU (m : Machine) : Prop := m.SR.testBit 5 = true

/-- Overflow flag (bit 6 of SR). -/
abbrev getV (m : Machine) : Prop := m.SR.testBit 6 = true

/-- Sign flag (bit 7 of SR). -/
abbrev getN (m : Machine) : Prop := m.SR.testBit 7 = true

/-! Concrete machine states used in the test scenarios below. -/

/-- ADC binary scenario: A = 0x50, operand 0x50, SR with C = 0, D = 0. -/
def MadcBin : Machine := { initMachine with A := 0x50, opeValue := 0x50, SR := 0x20 }

/-- ADC decimal scenario: A = 0x15, operand 0x27, SR with C = 0, D = 1. -/
def MadcDec : Machine := { initMachine with A := 0x15, opeValue := 0x27, SR := 0x28 }

/-- RTI scenario: stack holds 0x00 bytes, SR starts with all bits set. -/
def Mrti : Machine := { initMachine with SP := 0xFC, SR := 0xFF }

/-- Keyboard scenario: latch holds 0xC1 (bit 7 set). -/
def Mkey : Machine := { initMachine with key := 0xC1 }

/-- Keyboard program: LDA 0xC000; LDA 0xC010; LDA 0xC000 at 0x300. -/
def progKbd : Nat → Nat := fun a =>
  if a = 0x300 then 0xAD else if a = 0x301 then 0x00 else if a = 0x302 then 0xC0
  else if a = 0x303 then 0xAD else if a = 0x304 then 0x10 else if a = 0x305 then 0xC0
  else if a = 0x306 then 0xAD else if a = 0x307 then 0x00 else if a = 0x308 then 0xC0
  else 0

/-- Keyboard scenario machine: the program above, latch = 0xC1. -/
def Mkbd : Machine := { initMachine with ram := progKbd, PC := 0x300, key := 0xC1, SR := 0x20 }

/-- Machine with the video-dirty flag initially clear. -/
def Mclean : Machine := { initMachine with videoNeedsRefresh := false }

/-- Indirect-JMP program: JMP (0x30FF) at 0x200; pointer bytes at 0x30FF and 0x3000. -/
def progInd : Nat → Nat := fun a =>
  if a = 0x200 then 0x6C else if a = 0x201 then 0xFF else if a = 0x202 then 0x30
  else if a = 0x30FF then 0x80 else if a = 0x3000 then 0x50
  else 0

/-- Indirect-JMP scenario machine. -/
def Mind : Machine := { initMachine with ram := progInd, PC := 0x200 }

/-- BRK scenario: PC = 0x1234, SP = 0xFF, SR = 0x20, IRQ vector = 0x8000. -/
def Mbrk : Machine :=
  { initMachine with
      PC := 0x1234, SP := 0xFF, SR := 0x20,
      rom := fun a => if a = 0x2FFE then 0x00 else if a = 0x2FFF then 0x80 else 0 }

/-- JSR/RTS program: JSR 0x900 at 0x800; RTS at 0x900. -/
def progJsr : Nat → Nat := fun a =>
  if a = 0x800 then 0x20 else if a = 0x801 then 0x00 else if a = 0x802 then 0x09
  else if a = 0x900 then 0x60
  else 0

/-- JSR/RTS scenario machine. -/
def Mjsr : Machine := { initMachine with ram := progJsr, PC := 0x800, SP := 0xFF }

/-- Fetch-from-strobe scenario: PC = 0xC010 so the opcode fetch itself reads
the keyboard strobe; the latch byte 0x82 decodes to the opcode 0x02 (UND). -/
def Mund : Machine := { initMachine with PC := 0xC010, key := 0x82 }

/-- Plain UND scenario: opcode 0x02 in RAM at PC = 0x500. -/
def MundRam : Machine :=
  { initMachine with
      ram := fun a => if a = 0x500 then 0x02 else 0,
      PC := 0x500, A := 7, X := 8, Y := 9, SP := 0xFD, SR := 0x31, key := 0x55 }

/-- Indirect-JMP scenario machine, positioned after the opcode byte
(PC points at the first operand byte of JMP (0x30FF)). -/
def MindOp : Machine := { Mind with PC := 0x201 }

/-- Spec-side description of ADC for claim C1: the binary 16-bit sum
A + value + C. -/
def adcSum (m : Machine) : Nat := (m.A + m.opeValue + (m.SR &&& 0x01)) % 65536

/-- Spec-side description of ADC for claim C1: the NMOS BCD adjust amount
(((r + 0x66) ^ A ^ value) >> 3 & 0x22) * 3. -/
def adcAdj (m : Machine) : Nat :=
  ((((adcSum m + 0x66) ^^^ m.A ^^^ m.opeValue) >>> 3) &&& 0x22) * 3

/-- Spec-side description of ADC for claim C1: the final 16-bit result,
BCD-adjusted when the D flag is set. -/
def adcRes (m : Machine) : Nat :=
  if m.SR.testBit 3 then (adcSum m + adcAdj m) % 65536 else adcSum m

/-! Helper lemmas about Nat bit arithmetic. -/

theorem land_two_pow_eq_zero_iff (n i : Nat) : n &&& 2 ^ i = 0 ↔ n.testBit i = false := by
  constructor
  · intro h
    have h2 := congrArg (fun x => Nat.testBit x i) h
    simpa [Nat.testBit_two_pow] using h2
  · intro h
    apply Nat.eq_of_testBit_eq
    intro j
    by_cases hji : j = i
    · subst hji
      simp [h]
    · simp [Nat.testBit_two_pow, Ne.symm hji]

theorem land_two_pow_ne_zero_iff (n i : Nat) : n &&& 2 ^ i ≠ 0 ↔ n.testBit i = true := by
  rw [Ne, land_two_pow_eq_zero_iff]
  cases hb : n.testBit i <;> simp

theorem land_one_ne (n : Nat) : n &&& 1 ≠ 0 ↔ n.testBit 0 = true :=
  land_two_pow_ne_zero_iff n 0

theorem land_two_ne (n : Nat) : n &&& 2 ≠ 0 ↔ n.testBit 1 = true :=
  land_two_pow_ne_zero_iff n 1

theorem land_eight_ne (n : Nat) : n &&& 8 ≠ 0 ↔ n.testBit 3 = true :=
  land_two_pow_ne_zero_iff n 3

theorem land_128_ne (n : Nat) : n &&& 128 ≠ 0 ↔ n.testBit 7 = true :=
  land_two_pow_ne_zero_iff n 7

theorem land_1024_ne (n : Nat) : n &&& 1024 ≠ 0 ↔ n.testBit 10 = true :=
  land_two_pow_ne_zero_iff n 10

theorem land_255_eq_mod (n : Nat) : n &&& 255 = n % 256 :=
  Nat.and_pow_two_sub_one_eq_mod n 8

theorem shiftRight_eight_eq (n : Nat) : n >>> 8 = n / 256 := by
  rw [Nat.shiftRight_eq_div_pow]

theorem lor_shiftLeft_eight (lo hi : Nat) (h : lo < 256) : lo ||| hi <<< 8 = hi * 256 + lo := by
  have hlt : lo < 2 ^ 8 := h
  rw [Nat.lor_comm, Nat.shiftLeft_eq, Nat.mul_comm hi (2 ^ 8), ← Nat.mul_add_lt_is_or hlt hi]

theorem and_ff00_eq (n : Nat) (h : n < 65536) : n &&& 0xFF00 = n / 256 * 256 := by
  apply Nat.eq_of_testBit_eq
  intro j
  have h00 : (0xFF00 : Nat) = 2 ^ 8 * 255 := by norm_num
  have hdiv : n / 256 * 256 = 2 ^ 8 * (n / 2 ^ 8) := by
    rw [Nat.mul_comm]
    norm_num
  rw [Nat.testBit_and, h00, hdiv, Nat.testBit_mul_pow_two, Nat.testBit_mul_pow_two]
  have hsh : Nat.testBit (n / 256) (j - 8) = Nat.testBit n (8 + (j - 8)) := by
    rw [show (256 : Nat) = 2 ^ 8 from by norm_num, ← Nat.shiftRight_eq_div_pow,
      Nat.testBit_shiftRight]
  by_cases h8 : 8 ≤ j
  · have hjj : 8 + (j - 8) = j := by omega
    by_cases h16 : j < 16
    · have h255 : Nat.testBit 255 (j - 8) = true := by
        rw [show (255 : Nat) = 2 ^ 8 - 1 from by norm_num, Nat.testBit_two_pow_sub_one]
        simp
        omega
      simp [h8, h255, hsh, hjj]
    · have hj : Nat.testBit n j = false := Nat.testBit_lt_two_pow (by
        calc n < 65536 := h
        _ = 2 ^ 16 := by norm_num
        _ ≤ 2 ^ j := Nat.pow_le_pow_right (by norm_num) (by omega))
      simp [h8, hsh, hjj, hj]
  · simp [h8]

/-! Helper lemmas about the bus and the stack. -/

theorem readMemV_ram (m : Machine) (a : Nat) (h : a < 0xC000) :
    readMemV m a = m.ram a % 256 := by
  have h2 : a % 65536 = a := Nat.mod_eq_of_lt (by omega)
  simp [readMemV, h2, h]

theorem readMemS_ram (m : Machine) (a : Nat) (h : a < 0xC000) :
    readMemS m a = m := by
  have h2 : a % 65536 = a := Nat.mod_eq_of_lt (by omega)
  simp [readMemS, h2, h]

theorem readMemV_rom (m : Machine) (a : Nat) (h1 : 0xD000 ≤ a) (h2 : a < 65536) :
    readMemV m a = m.rom (a - 0xD000) % 256 := by
  have h3 : a % 65536 = a := Nat.mod_eq_of_lt h2
  have h4 : ¬ a < 0xC000 := by omega
  simp [readMemV, h3, h4, h1]

theorem readMemS_rom (m : Machine) (a : Nat) (h1 : 0xD000 ≤ a) (h2 : a < 65536) :
    readMemS m a = m := by
  have h3 : a % 65536 = a := Nat.mod_eq_of_lt h2
  have h4 : ¬ a < 0xC000 := by omega
  simp [readMemS, h3, h4, h1]

@[simp] theorem readMemS_ram_fields (m : Machine) (a : Nat) : (readMemS m a).ram = m.ram := by
  simp only [readMemS]
  split_ifs <;> rfl

@[simp] theorem readMemS_rom_fields (m : Machine) (a : Nat) : (readMemS m a).rom = m.rom := by
  simp only [readMemS]
  split_ifs <;> rfl

@[simp] theorem readMemS_A (m : Machine) (a : Nat) : (readMemS m a).A = m.A := by
  simp only [readMemS]
  split_ifs <;> rfl

@[simp] theorem readMemS_X (m : Machine) (a : Nat) : (readMemS m a).X = m.X := by
  simp only [readMemS]
  split_ifs <;> rfl

@[simp] theorem readMemS_Y (m : Machine) (a : Nat) : (readMemS m a).Y = m.Y := by
  simp only [readMemS]
  split_ifs <;> rfl

@[simp] theorem readMemS_SR (m : Machine) (a : Nat) : (readMemS m a).SR = m.SR := by
  simp only [readMemS]
  split_ifs <;> rfl

@[simp] theorem readMemS_SP (m : Machine) (a : Nat) : (readMemS m a).SP = m.SP := by
  simp only [readMemS]
  split_ifs <;> rfl

@[simp] theorem readMemS_PC (m : Machine) (a : Nat) : (readMemS m a).PC = m.PC := by
  simp only [readMemS]
  split_ifs <;> rfl

@[simp] theorem readMemS_video (m : Machine) (a : Nat) :
    (readMemS m a).videoNeedsRefresh = m.videoNeedsRefresh := by
  simp only [readMemS]
  split_ifs <;> rfl

@[simp] theorem readMemS_setAcc (m : Machine) (a : Nat) : (readMemS m a).setAcc = m.setAcc := by
  simp only [readMemS]
  split_ifs <;> rfl

@[simp] theorem readMemS_opeValue (m : Machine) (a : Nat) :
    (readMemS m a).opeValue = m.opeValue := by
  simp only [readMemS]
  split_ifs <;> rfl

@[simp] theorem readMemS_opeAddress (m : Machine) (a : Nat) :
    (readMemS m a).opeAddress = m.opeAddress := by
  simp only [readMemS]
  split_ifs <;> rfl

theorem readMemV_lt (m : Machine) (a : Nat) : readMemV m a < 256 := by
  simp only [readMemV]
  split_ifs
  · exact Nat.mod_lt _ (by norm_num)
  · exact Nat.mod_lt _ (by norm_num)
  · exact Nat.mod_lt _ (by norm_num)
  · exact lt_of_le_of_lt Nat.and_le_right (by norm_num)
  · norm_num

theorem pullV_eq (m : Machine) :
    pullV m = m.ram (0x100 + (m.SP % 256 + 1) % 256) % 256 := by
  have h : 0x100 + (m.SP % 256 + 1) % 256 < 0xC000 := by omega
  unfold pullV
  exact readMemV_ram _ _ h

theorem pullS_eq (m : Machine) :
    pullS m = { m with SP := (m.SP % 256 + 1) % 256 } := by
  have h : 0x100 + (m.SP % 256 + 1) % 256 < 0xC000 := by omega
  unfold pullS
  rw [readMemS_ram _ _ h]

theorem push_eq (m : Machine) (v : Nat) :
    push m v =
      { m with
          ram := fun x => if x = 0x100 + m.SP % 256 then v % 256 else m.ram x,
          SP := (m.SP % 256 + 255) % 256 } := by
  have hs : m.SP % 256 < 256 := Nat.mod_lt _ (by norm_num)
  have ha : (0x100 + m.SP % 256) % 65536 = 0x100 + m.SP % 256 := Nat.mod_eq_of_lt (by omega)
  have hb : (0x100 + m.SP % 256) &&& 0x400 = 0 := by
    rw [show (0x400 : Nat) = 2 ^ 10 from by norm_num, land_two_pow_eq_zero_iff]
    exact Nat.testBit_lt_two_pow (by omega)
  have hc : 0x100 + m.SP % 256 < 0xC000 := by omega
  simp [push, writeMem, ha, hb, hc]

/-- Claim C2: the claim says RTI pulls SR with the U (bit 5) flag forced
to 1, just as PLP does. The code pulls SR verbatim in RTI: at a state
whose stack bytes are 0, RTI leaves U clear while PLP forces it to 1. -/
theorem C2_rti_u_bit_not_forced : ¬ getU (RTI Mrti) ∧ getU (PLP Mrti) := by
  decide

/-- Claim C3 counterexample: with the latch holding 0xC1, a read of 0xC000
returns 0xC1 but leaves the latch unchanged (bit 7 still set), and a second
read of 0xC000 again returns 0xC1, not the bit-7-cleared 0x41 predicted by
the claim. -/
theorem C3_counterexample :
    readMemV Mkey 0xC000 = 0xC1 ∧ (readMemS Mkey 0xC000).key = 0xC1
      ∧ readMemV (readMemS Mkey 0xC000) 0xC000 = 0xC1 := by
  decide

/-- Claim C3 (amended): a read of 0xC000 returns the current latch byte and
leaves the machine state, in particular the latch, unchanged; bit 7 of the
latch is cleared only by accesses to 0xC010. -/
theorem C3_read_c000_preserves_latch (m : Machine) :
    readMemV m 0xC000 = m.key % 256 ∧ readMemS m 0xC000 = m := by
  exact ⟨rfl, rfl⟩

/-- Claim C4: with the latch set to 0xC1, LDA 0xC000 yields A = 0xC1 with
N = 1 and leaves the latch unchanged; a subsequent LDA 0xC010 clears bit 7
of the latch and yields A = 0x41 with N = 0; a further LDA 0xC000 yields
A = 0x41. -/
theorem C4_keyboard_latch_scenario :
    (step Mkbd).A = 0xC1 ∧ getN (step Mkbd) ∧ (step Mkbd).key = 0xC1
    ∧ (step (step Mkbd)).A = 0x41 ∧ ¬ getN (step (step Mkbd))
    ∧ (step (step Mkbd)).key = 0x41
    ∧ (step (step (step Mkbd))).A = 0x41 := by
  decide

/-- Claim C5: a write sets the video-dirty flag exactly when bit 10 of the
address is set, regardless of the target region, and leaves it unchanged
otherwise; writes to 0x400 and 0xC00 set it, a write to 0x300 does not. -/
theorem C5_write_video_dirty (m : Machine) (addr value : Nat) (h : addr < 65536) :
    ((addr &&& 0x400 ≠ 0 → (writeMem m addr value).videoNeedsRefresh = true)
      ∧ (addr &&& 0x400 = 0 → (writeMem m addr value).videoNeedsRefresh = m.videoNeedsRefresh))
    ∧ (writeMem Mclean 0x400 0).videoNeedsRefresh = true
    ∧ (writeMem Mclean 0x300 0).videoNeedsRefresh = false
    ∧ (writeMem Mclean 0xC00 0).videoNeedsRefresh = true := by
  refine ⟨⟨?_, ?_⟩, by decide, by decide, by decide⟩
  · intro hbit
    simp only [writeMem, Nat.mod_eq_of_lt h]
    rw [if_pos hbit]
    split_ifs <;> rfl
  · intro hbit
    simp only [writeMem, Nat.mod_eq_of_lt h]
    rw [if_neg (show ¬ (addr &&& 0x400 ≠ 0) from by simp [hbit])]
    split_ifs <;> rfl

/-- Claim C6: an indirect JMP whose pointer lies at xxFF fetches the target
low byte from xxFF and the target high byte from xx00 of the same page;
concretely, with 0x30FF = 0x80 and 0x3000 = 0x50, JMP (0x30FF) sets
PC = 0x5080. -/
theorem C6_jmp_indirect_page_wrap (m : Machine) (hi : Nat)
    (hpc : m.PC % 65536 + 1 < 0xC000)
    (h1 : m.ram (m.PC % 65536) % 256 = 0xFF)
    (h2 : m.ram (m.PC % 65536 + 1) % 256 = hi)
    (hhi : hi < 0xC0) :
    (JMP (IND m)).PC = (m.ram (hi * 256 + 0xFF) % 256) ||| ((m.ram (hi * 256) % 256) <<< 8)
    ∧ (step Mind).PC = 0x5080 := by
  refine ⟨?_, by decide⟩
  have e1 : (m.PC % 65536 + 1) % 65536 = m.PC % 65536 + 1 := Nat.mod_eq_of_lt (by omega)
  simp only [IND, JMP]
  rw [readMemV_ram m (m.PC % 65536) (by omega), readMemS_ram m (m.PC % 65536) (by omega)]
  rw [e1, readMemV_ram m (m.PC % 65536 + 1) (by omega),
    readMemS_ram m (m.PC % 65536 + 1) (by omega)]
  rw [h1, h2]
  rw [lor_shiftLeft_eight 0xFF hi (by norm_num)]
  have hv2a : (hi * 256 + 0xFF) &&& 0xFF00 = hi * 256 := by
    rw [and_ff00_eq _ (by omega)]
    have hd : (hi * 256 + 0xFF) / 256 = hi := by omega
    rw [hd]
  have hv2b : (hi * 256 + 0xFF + 1) &&& 0x00FF = 0 := by
    rw [land_255_eq_mod]
    omega
  rw [hv2a, hv2b, Nat.or_zero]
  rw [readMemV_ram m (hi * 256 + 0xFF) (by omega)]
  rw [readMemS_ram m (hi * 256 + 0xFF) (by omega)]
  rw [readMemV_ram m (hi * 256) (by omega)]
  rw [readMemS_ram m (hi * 256) (by omega)]
  have hlt : (m.ram (hi * 256 + 0xFF) % 256) ||| ((m.ram (hi * 256) % 256) <<< 8) < 65536 := by
    rw [lor_shiftLeft_eight _ _ (Nat.mod_lt _ (by norm_num))]
    have hb := Nat.mod_lt (m.ram (hi * 256)) (show 0 < 256 from by norm_num)
    omega
  simp [Nat.mod_eq_of_lt hlt]

/-- Witness for claim C6 at the concrete pointer 0x30FF (machine MindOp). -/
theorem C6_jmp_indirect_page_wrap_witness :
    (MindOp.PC % 65536 + 1 < 0xC000
      ∧ MindOp.ram (MindOp.PC % 65536) % 256 = 0xFF
      ∧ MindOp.ram (MindOp.PC % 65536 + 1) % 256 = 0x30
      ∧ (0x30 : Nat) < 0xC0)
    ∧ ((JMP (IND MindOp)).PC
        = (MindOp.ram (0x30 * 256 + 0xFF) % 256) ||| ((MindOp.ram (0x30 * 256) % 256) <<< 8)
      ∧ (step Mind).PC = 0x5080) :=
  ⟨⟨by decide, by decide, by decide, by decide⟩,
    C6_jmp_indirect_page_wrap MindOp 0x30 (by decide) (by decide) (by decide) (by decide)⟩

/-- Witness for claim C5 at the concrete inputs addr = 0x400 and 0x300. -/
theorem C5_write_video_dirty_witness :
    (0x400 : Nat) < 65536
    ∧ ((((0x400 : Nat) &&& 0x400 ≠ 0 → (writeMem Mclean 0x400 7).videoNeedsRefresh = true)
      ∧ ((0x400 : Nat) &&& 0x400 = 0 → (writeMem Mclean 0x400 7).videoNeedsRefresh = Mclean.videoNeedsRefresh))
    ∧ (writeMem Mclean 0x400 0).videoNeedsRefresh = true
    ∧ (writeMem Mclean 0x300 0).videoNeedsRefresh = false
    ∧ (writeMem Mclean 0xC00 0).videoNeedsRefresh = true) :=
  ⟨by decide, C5_write_video_dirty Mclean 0x400 7 (by decide)⟩

/-- Claim C7: BRK advances PC by one extra byte, pushes that PC's high
byte, then its low byte, then SR with the BREAK bit set, sets the I flag,
and loads PC from the little-endian vector at 0xFFFE/0xFFFF (ROM offsets
0x2FFE/0x2FFF). -/
theorem C7_brk (m : Machine) (hSP : m.SP < 256) (hSR : m.SR < 256) :
    (BRK m).PC = m.rom 0x2FFE % 256 ||| ((m.rom 0x2FFF % 256) <<< 8)
    ∧ (BRK m).ram (0x100 + m.SP) = (m.PC % 65536 + 1) % 65536 / 256
    ∧ (BRK m).ram (0x100 + (m.SP + 255) % 256) = (m.PC % 65536 + 1) % 65536 % 256
    ∧ (BRK m).ram (0x100 + (m.SP + 254) % 256) = m.SR ||| 0x10
    ∧ Nat.testBit (m.SR ||| 0x10) 4 = true
    ∧ getI (BRK m)
    ∧ (BRK m).SP = (m.SP + 253) % 256 := by
  have hSPm : m.SP % 256 = m.SP := Nat.mod_eq_of_lt hSP
  have hSR2 : m.SR < 2 ^ 8 := hSR
  have hSR16 : (m.SR ||| 0x10) % 256 = m.SR ||| 0x10 :=
    Nat.mod_eq_of_lt (Nat.or_lt_two_pow hSR2 (by norm_num))
  have e1 : (m.SP + 255) % 256 % 256 = (m.SP + 255) % 256 := by omega
  have e2 : ((m.SP + 255) % 256 + 255) % 256 = (m.SP + 254) % 256 := by omega
  have e3 : ((m.SP + 254) % 256 + 255) % 256 = (m.SP + 253) % 256 := by omega
  refine ⟨?_, ?_, ?_, ?_,
    by simp [Nat.testBit_or, show Nat.testBit 16 4 = true from by decide], ?_, ?_⟩
  · simp [BRK, push_eq, hSPm, e1, e2, e3]
    rw [readMemV_rom _ 0xFFFE (by norm_num) (by norm_num),
      readMemV_rom _ 0xFFFF (by norm_num) (by norm_num)]
    simp
  · simp [BRK, push_eq, hSPm, e1, e2, e3]
    rw [if_neg (show ¬ m.SP = (m.SP + 254) % 256 from by omega),
      if_neg (show ¬ m.SP = (m.SP + 255) % 256 from by omega)]
    try simp only [shiftRight_eight_eq]
    try simp only [land_255_eq_mod]
    omega
  · simp [BRK, push_eq, hSPm, e1, e2, e3]
    rw [if_neg (show ¬ (m.SP + 255) % 256 = (m.SP + 254) % 256 from by omega)]
    try simp only [land_255_eq_mod]
    try omega
  · simp [BRK, push_eq, hSPm, e1, e2, e3, hSR16]
  · simp [BRK, push_eq, hSPm, e1, e2, e3, getI, Nat.testBit_or,
      show Nat.testBit 4 2 = true from by decide]
  · simp [BRK, push_eq, hSPm, e1, e2, e3]

/-- Witness for claim C7 at the concrete state Mbrk. -/
theorem C7_brk_witness :
    (Mbrk.SP < 256 ∧ Mbrk.SR < 256)
    ∧ ((BRK Mbrk).PC = Mbrk.rom 0x2FFE % 256 ||| ((Mbrk.rom 0x2FFF % 256) <<< 8)
      ∧ (BRK Mbrk).ram (0x100 + Mbrk.SP) = (Mbrk.PC % 65536 + 1) % 65536 / 256
      ∧ (BRK Mbrk).ram (0x100 + (Mbrk.SP + 255) % 256) = (Mbrk.PC % 65536 + 1) % 65536 % 256
      ∧ (BRK Mbrk).ram (0x100 + (Mbrk.SP + 254) % 256) = Mbrk.SR ||| 0x10
      ∧ Nat.testBit (Mbrk.SR ||| 0x10) 4 = true
      ∧ getI (BRK Mbrk)
      ∧ (BRK Mbrk).SP = (Mbrk.SP + 253) % 256) :=
  ⟨⟨by decide, by decide⟩, C7_brk Mbrk (by decide) (by decide)⟩

theorem readMemS_eq_of_ne (m : Machine) (a : Nat) (h : a % 65536 ≠ 0xC010) :
    readMemS m a = m := by
  simp only [readMemS]
  split_ifs <;> first | rfl | simp_all

/-- Claim C9 counterexample: the claim quantifies over every state, but
when PC = 0xC010 the opcode fetch itself reads the keyboard strobe and
clears bit 7 of the latch, even though the fetched opcode (0x02) maps to
UND: the latch is not left unchanged. -/
theorem C9_counterexample :
    instrAt (readMemV Mund (Mund.PC % 65536)) = Instr.UND
    ∧ (step Mund).PC = (Mund.PC % 65536 + 1) % 65536
    ∧ (step Mund).key ≠ Mund.key := by
  decide

set_option maxRecDepth 100000 in
/-- Claim C9 (amended): provided the opcode fetch does not read the
keyboard strobe (PC different from 0xC010), a step whose opcode maps to
UND has addressing mode IMP, advances PC by exactly one, and leaves the
registers, RAM, ROM, the keyboard latch and the video-dirty flag
unchanged. -/
theorem C9_und_noop (m : Machine) (hpc : m.PC % 65536 ≠ 0xC010)
    (hund : instrAt (readMemV m (m.PC % 65536)) = Instr.UND) :
    modeAt (readMemV m (m.PC % 65536)) = Mode.IMP
    ∧ (step m).PC = (m.PC % 65536 + 1) % 65536
    ∧ (step m).A = m.A ∧ (step m).X = m.X ∧ (step m).Y = m.Y
    ∧ (step m).SP = m.SP ∧ (step m).SR = m.SR
    ∧ (step m).ram = m.ram ∧ (step m).rom = m.rom
    ∧ (step m).key = m.key ∧ (step m).videoNeedsRefresh = m.videoNeedsRefresh := by
  have hop : readMemV m (m.PC % 65536) < 256 := readMemV_lt m _
  have htab : ∀ op, op < 256 → instrAt op = Instr.UND → modeAt op = Mode.IMP := by decide
  have hmode : modeAt (readMemV m (m.PC % 65536)) = Mode.IMP := htab _ hop hund
  have hmm : m.PC % 65536 % 65536 = m.PC % 65536 :=
    Nat.mod_eq_of_lt (Nat.mod_lt m.PC (by norm_num))
  have hs : readMemS m (m.PC % 65536) = m := readMemS_eq_of_ne m _ (by
    rw [hmm]
    exact hpc)
  refine ⟨hmode, ?_⟩
  simp [step, hs, hmode, hund, applyMode, exec, IMP, UND]

set_option maxRecDepth 100000 in
/-- Witness for claim C9 at the concrete state MundRam (opcode 0x02 in
RAM at PC = 0x500). -/
theorem C9_und_noop_witness :
    (MundRam.PC % 65536 ≠ 0xC010
      ∧ instrAt (readMemV MundRam (MundRam.PC % 65536)) = Instr.UND)
    ∧ (modeAt (readMemV MundRam (MundRam.PC % 65536)) = Mode.IMP
      ∧ (step MundRam).PC = (MundRam.PC % 65536 + 1) % 65536
      ∧ (step MundRam).A = MundRam.A ∧ (step MundRam).X = MundRam.X
      ∧ (step MundRam).Y = MundRam.Y
      ∧ (step MundRam).SP = MundRam.SP ∧ (step MundRam).SR = MundRam.SR
      ∧ (step MundRam).ram = MundRam.ram ∧ (step MundRam).rom = MundRam.rom
      ∧ (step MundRam).key = MundRam.key
      ∧ (step MundRam).videoNeedsRefresh = MundRam.videoNeedsRefresh) :=
  ⟨⟨by decide, by decide⟩, C9_und_noop MundRam (by decide) (by decide)⟩


@[simp] theorem writeMem_setAcc (m : Machine) (a v : Nat) :
    (writeMem m a v).setAcc = m.setAcc := by
  simp only [writeMem]
  split_ifs <;> rfl

@[simp] theorem setSZ_setAcc (m : Machine) (v : Nat) : (setSZ m v).setAcc = m.setAcc := by
  simp only [setSZ]
  split_ifs <;> rfl

@[simp] theorem push_setAcc (m : Machine) (v : Nat) : (push m v).setAcc = m.setAcc := by
  simp [push_eq]

@[simp] theorem pullS_setAcc (m : Machine) : (pullS m).setAcc = m.setAcc := by
  simp [pullS_eq]

@[simp] theorem makeUpdates_setAcc (m : Machine) (v : Nat) :
    (makeUpdates m v).setAcc = false := by
  simp only [makeUpdates]
  cases hm : m.setAcc <;> simp [hm]

theorem applyMode_setAcc (mo : Mode) (m : Machine) (hmo : mo ≠ Mode.ACC) :
    (applyMode mo m).setAcc = m.setAcc := by
  cases mo
  case ACC => exact absurd rfl hmo
  all_goals simp [applyMode, IMP, IMM, ZPG, ZPX, ZPY, REL, ABS, ABX, ABY, IND, IDX, IDY]

theorem exec_setAcc (i : Instr) (m : Machine) (h : m.setAcc = false) :
    (exec i m).setAcc = false := by
  cases i <;>
    simp [exec, NOP, BRK, CLD, SED, CLC, SEC, CLI, SEI, CLV, LDA, LDX, LDY,
      STA, STX, STY, DEC, DEX, DEY, INC, INX, INY, TAX, TAY, TXA, TYA, TSX, TXS,
      BEQ, BNE, BMI, BPL, BVS, BVC, BCS, BCC, PHA, PLA, PHP, PLP, JMP, JSR, RTS,
      RTI, CMP, CPX, CPY, AND, ORA, EOR, BIT, ASL, LSR, ROL, ROR, ADC, SBC, UND,
      apply_ite, h]

set_option maxRecDepth 100000 in
theorem step_setAcc (m : Machine) (h : m.setAcc = false) : (step m).setAcc = false := by
  simp only [step]
  by_cases hacc : modeAt (readMemV m (m.PC % 65536)) = Mode.ACC
  · have hop : readMemV m (m.PC % 65536) < 256 := readMemV_lt m _
    have htab : ∀ op, op < 256 → modeAt op = Mode.ACC →
        (instrAt op = Instr.ASL ∨ instrAt op = Instr.ROL
          ∨ instrAt op = Instr.LSR ∨ instrAt op = Instr.ROR) := by decide
    rcases htab _ hop hacc with hi | hi | hi | hi <;>
      rw [hi] <;> simp [exec, ASL, ROL, LSR, ROR]
  · have h2 : (applyMode (modeAt (readMemV m (m.PC % 65536)))
        { readMemS m (m.PC % 65536) with PC := (m.PC % 65536 + 1) % 65536 }).setAcc = false := by
      rw [applyMode_setAcc _ _ hacc]
      simp [h]
    exact exec_setAcc _ _ h2

set_option maxRecDepth 100000 in
/-- Claim C10: the operand setAcc flag is false at the start of every step
reachable from reset: reset clears it; the only opcodes whose addressing
mode is ACC are 0x0A, 0x2A, 0x4A, 0x6A, which execute ASL/ROL/LSR/ROR, and
those clear setAcc again through the shared write-back helper, so setAcc
is false again after every step. -/
theorem C10_setAcc_invariant :
    (∀ op, op < 256 → modeAt op = Mode.ACC →
      ((op = 0x0A ∨ op = 0x2A ∨ op = 0x4A ∨ op = 0x6A)
        ∧ (instrAt op = Instr.ASL ∨ instrAt op = Instr.ROL
            ∨ instrAt op = Instr.LSR ∨ instrAt op = Instr.ROR)))
    ∧ (∀ m, (reset m).setAcc = false)
    ∧ (∀ m n, (step^[n] (reset m)).setAcc = false) := by
  refine ⟨by decide, fun m => rfl, ?_⟩
  intro m n
  induction n with
  | zero => rfl
  | succ k ih =>
    rw [Function.iterate_succ_apply']
    exact step_setAcc _ ih


theorem lor_read_lt (lo hi : Nat) (hl : lo < 256) (hh : hi < 256) :
    lo ||| hi <<< 8 < 65536 := by
  have h1 : lo < 2 ^ 16 := by omega
  have h2 : hi <<< 8 < 2 ^ 16 := by
    rw [Nat.shiftLeft_eq]
    have : hi * 2 ^ 8 < 256 * 256 := by
      have := Nat.mul_lt_mul_of_lt_of_le hh (le_refl 256) (by norm_num)
      simpa using this
    omega
  exact Nat.or_lt_two_pow h1 h2

set_option maxRecDepth 100000 in
theorem step_jsr (m : Machine) (hPC : m.PC < 65536) (hSP : m.SP < 256)
    (hop : readMemV m (m.PC % 65536) = 0x20) :
    (step m).PC = (step m).opeAddress
    ∧ (∀ x, (step m).ram x =
        if x = 0x100 + (m.SP + 255) % 256 then (m.PC + 2) % 65536 % 256
        else if x = 0x100 + m.SP then (m.PC + 2) % 65536 / 256
        else m.ram x)
    ∧ (step m).SP = (m.SP + 254) % 256 := by
  have hPCm : m.PC % 65536 = m.PC := Nat.mod_eq_of_lt hPC
  have hSPm : m.SP % 256 = m.SP := Nat.mod_eq_of_lt hSP
  have hmode : modeAt 0x20 = Mode.ABS := by decide
  have hinstr : instrAt 0x20 = Instr.JSR := by decide
  rw [hPCm] at hop
  refine ⟨?_, ?_, ?_⟩
  · simp [step, hPCm, hop, hmode, hinstr, applyMode, exec, ABS, JSR, push_eq, hSPm]
    exact lor_read_lt _ _ (readMemV_lt _ _) (readMemV_lt _ _)
  · intro x
    simp [step, hPCm, hop, hmode, hinstr, applyMode, exec, ABS, JSR, push_eq, hSPm,
      shiftRight_eight_eq, land_255_eq_mod]
    split_ifs <;> omega
  · simp [step, hPCm, hop, hmode, hinstr, applyMode, exec, ABS, JSR, push_eq, hSPm]
    omega

set_option maxRecDepth 100000 in
theorem step_rts (w : Machine) (hop60 : readMemV w (w.PC % 65536) = 0x60) :
    (step w).PC = ((w.ram (0x100 + (w.SP % 256 + 1) % 256) % 256
      ||| (w.ram (0x100 + (w.SP % 256 + 2) % 256) % 256) <<< 8) + 1) % 65536 := by
  have hmode : modeAt 0x60 = Mode.IMP := by decide
  have hinstr : instrAt 0x60 = Instr.RTS := by decide
  have e : ((w.SP % 256 + 1) % 256 % 256 + 1) % 256 = (w.SP % 256 + 2) % 256 := by omega
  simp [step, hop60, hmode, hinstr, applyMode, exec, IMP, RTS, pullV_eq, pullS_eq, e]


/-- Claim C8: JSR pushes PC-1 (the address of the last byte of the 3-byte
JSR instruction) high then low, sets PC to the operand address, and the RTS
it jumps to pulls low then high and sets PC to the pulled address plus one,
returning control to the byte immediately after the JSR. -/
theorem C8_jsr_rts (m : Machine) (hPC : m.PC < 65536) (hSP : m.SP < 256)
    (hop : readMemV m (m.PC % 65536) = 0x20)
    (hrts : readMemV (step m) ((step m).PC % 65536) = 0x60) :
    (step m).PC = (step m).opeAddress
    ∧ (step m).ram (0x100 + m.SP) = (m.PC + 2) % 65536 / 256
    ∧ (step m).ram (0x100 + (m.SP + 255) % 256) = (m.PC + 2) % 65536 % 256
    ∧ (step m).SP = (m.SP + 254) % 256
    ∧ (step (step m)).PC = (m.PC + 3) % 65536 := by
  obtain ⟨h1, h2, h3⟩ := step_jsr m hPC hSP hop
  refine ⟨h1, ?_, ?_, h3, ?_⟩
  · rw [h2]
    rw [if_neg (show ¬ 0x100 + m.SP = 0x100 + (m.SP + 255) % 256 from by omega), if_pos rfl]
  · rw [h2, if_pos rfl]
  · rw [step_rts (step m) hrts, h3]
    have e1 : ((m.SP + 254) % 256 % 256 + 1) % 256 = (m.SP + 255) % 256 := by omega
    have e2 : ((m.SP + 254) % 256 % 256 + 2) % 256 = m.SP := by omega
    rw [e1, e2, h2 (0x100 + (m.SP + 255) % 256), h2 (0x100 + m.SP)]
    rw [if_pos rfl]
    rw [if_neg (show ¬ 0x100 + m.SP = 0x100 + (m.SP + 255) % 256 from by omega), if_pos rfl]
    have e3 : (m.PC + 2) % 65536 % 256 % 256 = (m.PC + 2) % 65536 % 256 := by omega
    have e4 : (m.PC + 2) % 65536 / 256 % 256 = (m.PC + 2) % 65536 / 256 := by omega
    rw [e3, e4, lor_shiftLeft_eight _ _ (by omega)]
    omega

/-- Witness for claim C8 at the concrete program Mjsr (JSR 0x900 at 0x800,
RTS at 0x900). -/
theorem C8_jsr_rts_witness :
    (Mjsr.PC < 65536 ∧ Mjsr.SP < 256
      ∧ readMemV Mjsr (Mjsr.PC % 65536) = 0x20
      ∧ readMemV (step Mjsr) ((step Mjsr).PC % 65536) = 0x60)
    ∧ ((step Mjsr).PC = (step Mjsr).opeAddress
      ∧ (step Mjsr).ram (0x100 + Mjsr.SP) = (Mjsr.PC + 2) % 65536 / 256
      ∧ (step Mjsr).ram (0x100 + (Mjsr.SP + 255) % 256) = (Mjsr.PC + 2) % 65536 % 256
      ∧ (step Mjsr).SP = (Mjsr.SP + 254) % 256
      ∧ (step (step Mjsr)).PC = (Mjsr.PC + 3) % 65536) :=
  ⟨⟨by decide, by decide, by decide, by decide⟩,
    C8_jsr_rts Mjsr (by decide) (by decide) (by decide) (by decide)⟩


theorem land_128_eq (n : Nat) : n &&& 128 = 0 ↔ n.testBit 7 = false :=
  land_two_pow_eq_zero_iff n 7

theorem setSZ_bit3 (m : Machine) (v : Nat) : (setSZ m v).SR.testBit 3 = m.SR.testBit 3 := by
  simp only [setSZ]
  split_ifs <;>
    simp [Nat.testBit_or, Nat.testBit_and,
      show Nat.testBit 128 3 = false from by decide, show Nat.testBit 127 3 = true from by decide,
      show Nat.testBit 253 3 = true from by decide, show Nat.testBit 2 3 = false from by decide]

theorem setSZ_bit7 (m : Machine) (v : Nat) :
    (setSZ m v).SR.testBit 7 = (v % 256).testBit 7 := by
  simp only [setSZ]
  by_cases hn : v % 256 &&& 128 ≠ 0
  · rw [if_pos hn, (land_128_ne _).mp hn]
    split_ifs <;>
      simp [Nat.testBit_or, show Nat.testBit 128 7 = true from by decide]
  · rw [if_neg hn, (land_128_eq _).mp (not_ne_iff.mp hn)]
    split_ifs <;>
      simp [Nat.testBit_and, show Nat.testBit 127 7 = false from by decide]

theorem setSZ_bit1 (m : Machine) (v : Nat) :
    (setSZ m v).SR.testBit 1 = decide (v % 256 = 0) := by
  simp only [setSZ]
  by_cases hz : v % 256 ≠ 0
  · simp only [if_pos hz]
    rw [show decide (v % 256 = 0) = false from by simp [hz]]
    split_ifs <;>
      simp [Nat.testBit_or, Nat.testBit_and,
        show Nat.testBit 253 1 = false from by decide,
        show Nat.testBit 128 1 = false from by decide,
        show Nat.testBit 127 1 = true from by decide]
  · simp only [if_neg hz]
    have hz2 : v % 256 = 0 := not_ne_iff.mp hz
    rw [show decide (v % 256 = 0) = true from by simp [hz2]]
    split_ifs <;>
      simp [Nat.testBit_or, Nat.testBit_and,
        show Nat.testBit 2 1 = true from by decide,
        show Nat.testBit 128 1 = false from by decide,
        show Nat.testBit 127 1 = true from by decide]



theorem tbConsts :
    (Nat.testBit 64 7 = false) ∧ (Nat.testBit 191 7 = true)
    ∧ (Nat.testBit 1 7 = false) ∧ (Nat.testBit 254 7 = true)
    ∧ (Nat.testBit 64 1 = false) ∧ (Nat.testBit 191 1 = true)
    ∧ (Nat.testBit 1 1 = false) ∧ (Nat.testBit 254 1 = true)
    ∧ (Nat.testBit 64 6 = true) ∧ (Nat.testBit 191 6 = false)
    ∧ (Nat.testBit 1 6 = false) ∧ (Nat.testBit 254 6 = true)
    ∧ (Nat.testBit 64 0 = false) ∧ (Nat.testBit 191 0 = true)
    ∧ (Nat.testBit 1 0 = true) ∧ (Nat.testBit 254 0 = false) := by
  decide

set_option maxHeartbeats 1000000 in
/-- Claim C1: ADC computes the 16-bit binary sum r = A + value + C, sets N
and Z from the low 8 bits of the binary sum (even in decimal mode), sets V
iff ((r ^ A) & (r ^ value) & 0x80) is non-zero, then adds the NMOS BCD
adjust to r when D is set, sets C iff (r & 0xFF00) is non-zero, and stores
r & 0xFF into A; concretely 0x50 + 0x50 gives A=0xA0 N=1 V=1 Z=0 C=0, and
decimal 0x15 + 0x27 gives A=0x42 C=0. -/
theorem C1_adc (m : Machine) (hA : m.A < 256) (hv : m.opeValue < 65536) :
    (((ADC m).A = adcRes m % 256)
      ∧ (getN (ADC m) ↔ (adcSum m % 256).testBit 7 = true)
      ∧ (getZ (ADC m) ↔ adcSum m % 256 = 0)
      ∧ (getV (ADC m) ↔ (adcSum m ^^^ m.A) &&& (adcSum m ^^^ m.opeValue) &&& 0x80 ≠ 0)
      ∧ (getC (ADC m) ↔ adcRes m &&& 0xFF00 ≠ 0))
    ∧ ((ADC MadcBin).A = 0xA0 ∧ getN (ADC MadcBin) ∧ getV (ADC MadcBin)
        ∧ ¬ getZ (ADC MadcBin) ∧ ¬ getC (ADC MadcBin))
    ∧ ((ADC MadcDec).A = 0x42 ∧ ¬ getC (ADC MadcDec)) := by
  have hA2 : m.A % 256 = m.A := Nat.mod_eq_of_lt hA
  have hv2 : m.opeValue % 65536 = m.opeValue := Nat.mod_eq_of_lt hv
  refine ⟨?_, by decide, by decide⟩
  simp only [ADC, hA2, hv2, adcSum, adcAdj, adcRes, getN, getZ, getV, getC]
  set r := (m.A + m.opeValue + (m.SR &&& 1)) % 65536 with hr
  set adj := ((((r + 0x66) ^^^ m.A ^^^ m.opeValue) >>> 3) &&& 0x22) * 3 with hadj
  have hsz3 := setSZ_bit3 m r
  have hD1 : (((setSZ m r).SR ||| 64) &&& 8 ≠ 0) ↔ (m.SR.testBit 3 = true) := by
    rw [land_eight_ne, Nat.testBit_or, hsz3]
    simp [show Nat.testBit 64 3 = false from by decide]
  have hD2 : (((setSZ m r).SR &&& 191) &&& 8 ≠ 0) ↔ (m.SR.testBit 3 = true) := by
    rw [land_eight_ne, Nat.testBit_and, hsz3]
    simp [show Nat.testBit 191 3 = true from by decide]
  by_cases hV : (r ^^^ m.A) &&& (r ^^^ m.opeValue) &&& 128 ≠ 0
  · rw [if_pos hV]
    by_cases hD : m.SR.testBit 3 = true
    · rw [if_pos (hD1.mpr hD), if_pos hD]
      by_cases hC : (r + adj) % 65536 &&& 0xFF00 ≠ 0
      · rw [if_pos hC]
        simp [Nat.testBit_or, Nat.testBit_and, setSZ_bit7, setSZ_bit1, land_255_eq_mod,
          hV, hC, tbConsts]
      · rw [if_neg hC]
        simp [Nat.testBit_or, Nat.testBit_and, setSZ_bit7, setSZ_bit1, land_255_eq_mod,
          hV, hC, tbConsts]
    · rw [if_neg (fun hcontra => hD (hD1.mp hcontra)), if_neg hD]
      by_cases hC : r &&& 0xFF00 ≠ 0
      · rw [if_pos hC]
        simp [Nat.testBit_or, Nat.testBit_and, setSZ_bit7, setSZ_bit1, land_255_eq_mod,
          hV, hC, tbConsts]
      · rw [if_neg hC]
        simp [Nat.testBit_or, Nat.testBit_and, setSZ_bit7, setSZ_bit1, land_255_eq_mod,
          hV, hC, tbConsts]
  · rw [if_neg hV]
    by_cases hD : m.SR.testBit 3 = true
    · rw [if_pos (hD2.mpr hD), if_pos hD]
      by_cases hC : (r + adj) % 65536 &&& 0xFF00 ≠ 0
      · rw [if_pos hC]
        simp [Nat.testBit_or, Nat.testBit_and, setSZ_bit7, setSZ_bit1, land_255_eq_mod,
          hV, hC, tbConsts]
      · rw [if_neg hC]
        simp [Nat.testBit_or, Nat.testBit_and, setSZ_bit7, setSZ_bit1, land_255_eq_mod,
          hV, hC, tbConsts]
    · rw [if_neg (fun hcontra => hD (hD2.mp hcontra)), if_neg hD]
      by_cases hC : r &&& 0xFF00 ≠ 0
      · rw [if_pos hC]
        simp [Nat.testBit_or, Nat.testBit_and, setSZ_bit7, setSZ_bit1, land_255_eq_mod,
          hV, hC, tbConsts]
      · rw [if_neg hC]
        simp [Nat.testBit_or, Nat.testBit_and, setSZ_bit7, setSZ_bit1, land_255_eq_mod,
          hV, hC, tbConsts]

/-- Witness for claim C1 at the concrete binary-mode state MadcBin. -/
theorem C1_adc_witness :
    (MadcBin.A < 256 ∧ MadcBin.opeValue < 65536)
    ∧ ((((ADC MadcBin).A = adcRes MadcBin % 256)
        ∧ (getN (ADC MadcBin) ↔ (adcSum MadcBin % 256).testBit 7 = true)
        ∧ (getZ (ADC MadcBin) ↔ adcSum MadcBin % 256 = 0)
        ∧ (getV (ADC MadcBin) ↔
            (adcSum MadcBin ^^^ MadcBin.A) &&& (adcSum MadcBin ^^^ MadcBin.opeValue) &&& 0x80 ≠ 0)
        ∧ (getC (ADC MadcBin) ↔ adcRes MadcBin &&& 0xFF00 ≠ 0))
      ∧ ((ADC MadcBin).A = 0xA0 ∧ getN (ADC MadcBin) ∧ getV (ADC MadcBin)
          ∧ ¬ getZ (ADC MadcBin) ∧ ¬ getC (ADC MadcBin))
      ∧ ((ADC MadcDec).A = 0x42 ∧ ¬ getC (ADC MadcDec))) :=
  ⟨⟨by decide, by decide⟩, C1_adc MadcBin (by decide) (by decide)⟩

end Reinette
